import Mathlib

/-!
# Shallow embedding of the ezdxf drawing frontend

This file embeds `src/ezdxf/addons/drawing/frontend.py` (the entity
decomposition and rendering frontend) in Lean 4 and proves properties of the
traversal.

Modelling conventions:

* Coordinates are exact rationals (`ℚ`); Python floats are modelled as exact
  real arithmetic.
* Angles and ellipse parameters are measured in *turns* (the Python value
  divided by `math.tau`, degrees divided by 360).  The source only ever uses
  parameters through the quotient `(end_param - start_param) / math.tau`, so
  this rescaling is faithful and keeps every quantity rational.
* Backend calls (`DrawingBackend`), render-context calls
  (`push_state`/`pop_state`) and diagnostic `print`s are recorded as an ordered
  event trace.  Invocations of the caller-supplied visibility filter are also
  recorded (as `filter_call` events); the filter is modelled as a function of
  the global invocation index so that stateful (non-deterministic) callbacks
  can be expressed.
* The Python `parent_stack` list is mutated in place and shared by reference
  between recursive calls, so it is part of the traversal state rather than a
  pure argument; `draw_entities` hands each top-level entity a fresh empty
  list, modelled by resetting the field.
* Recursion is indexed by a fuel budget (structural recursion on `ℕ`),
  modelling Python's finite call stack: the source has no depth or cycle guard
  (spec §9), and all theorems below hold for every sufficient budget.  Branches
  that perform no recursive call hold for every positive budget.
* Collaborator code that is not under `src/` (the `ezdxf.math` vector/ellipse
  library, `drawing/properties.py`, `drawing/utils.py`, the `disassemble`
  module) is modelled from the spec; each such definition carries a
  `Modelled from the spec:` doc comment.
-/

/-- A 3D vector with rational coordinates (models `ezdxf.math.Vector`). -/
structure Vec3 where
  x : ℚ
  y : ℚ
  z : ℚ
deriving DecidableEq

/-- World +Z axis, the default extrusion vector. -/
def Z_AXIS : Vec3 := ⟨0, 0, 1⟩

/-- World -Z axis (`NEG_Z_AXIS` in the source). -/
def NEG_Z_AXIS : Vec3 := ⟨0, 0, -1⟩

/-- Modelled from the spec: the default absolute tolerance (1e-12) used by the
math collaborator's `Vector.isclose` ("within tolerance", spec §4.1). -/
def vec_tol : ℚ := 1 / 1000000000000

/-- Modelled from the spec: `ezdxf.math.Vector.isclose` (math collaborator,
not under `src/`): componentwise closeness within absolute tolerance 1e-12. -/
def Vec3.isclose (a b : Vec3) : Bool :=
  decide (|a.x - b.x| ≤ vec_tol) && decide (|a.y - b.y| ≤ vec_tol) &&
    decide (|a.z - b.z| ≤ vec_tol)

/-- Models `Vector.replace(z=...)` of the math collaborator. -/
def Vec3.withZ (v : Vec3) (z : ℚ) : Vec3 := { v with z := z }

/-- Source `is_spatial` (frontend.py line 366): an extrusion is spatial (tilted out of
plane) when it is close to neither +Z nor -Z. -/
def is_spatial (v : Vec3) : Bool := !(v.isclose Z_AXIS) && !(v.isclose NEG_Z_AXIS)

/-- Resolved visual attributes of one entity in its drawing context
(`Properties` of `drawing/properties.py`, consumed by the frontend).
Transparency is 0.0 opaque .. 1.0 fully transparent (spec §3). -/
structure Properties where
  color : ℕ
  transparency : ℚ
  is_visible : Bool
deriving DecidableEq

/-- Modelled from the spec: the fixed viewport marker color
(`VIEWPORT_COLOR` of `drawing/properties.py`, not under `src/`), used instead
of the entity's resolved properties when drawing a viewport footprint. -/
def VIEWPORT_COLOR : Properties :=
  { color := 11184810, transparency := 0, is_visible := true }

/-- One straight boundary edge of a hatch boundary path after the collaborator
normalization `paths.polyline_to_edge_path` / `paths.all_to_line_edges`
(frontend.py lines 243-244) has reduced every edge to a `LineEdge` with 2D
start/end points in the hatch's object-local plane. -/
structure LineEdge where
  sx : ℚ
  sy : ℚ
  ex : ℚ
  ey : ℚ
deriving DecidableEq

/-- Modelled from the spec: `ezdxf.math.ConstructionEllipse` (math
collaborator, not under `src/`), "ellipse construction from
center/radius/extrusion/start/end-angle (for circles and arcs) unified with
native ellipse parameters" (spec §4.3).  Parameters are stored in turns. -/
structure EllipseConstr where
  center : Vec3
  major_axis : Vec3
  minor_factor : ℚ
  extrusion : Vec3
  start_param : ℚ
  end_param : ℚ
deriving DecidableEq

/-- The tagged variant of graphic entities (spec §3 `GraphicEntity`),
covering the entity kinds the verified claims quantify over.  Every
constructor's first field is the entity's raw DXF transparency attribute
(`none` = not explicitly set), which `draw_composite_entity` overwrites on
virtual children of dimension-like entities.  Angles/parameters are in turns.
`tag_storage` models `DXFTagStorage` (an opaque unsupported raw entity kept
only to preserve data); `unsupported` models any entity kind not handled by a
type-specific branch of `draw_entity`; both carry an opaque numeric code
standing for the raw DXF type name.  Composite expansion
(`virtual_entities()`) is modelled by stored data: `none` means the expansion
raises an exception, `some children` means it yields `children`. -/
inductive Entity where
  | line (t : Option ℚ) (s e : Vec3)
  | point (t : Option ℚ) (location : Vec3)
  | circle (t : Option ℚ) (center : Vec3) (radius : ℚ) (extrusion : Vec3)
  | arc (t : Option ℚ) (center : Vec3) (radius : ℚ)
      (start_angle end_angle : ℚ) (extrusion : Vec3)
  | ellipse (t : Option ℚ) (center major_axis : Vec3)
      (minor_factor start_param end_param : ℚ) (extrusion : Vec3)
  | hatch (t : Option ℚ) (elevation : ℚ) (extrusion : Vec3)
      (paths : List (List LineEdge))
  | viewport (t : Option ℚ) (center : Vec3) (width height : ℚ)
      (view_direction : Vec3)
  | polyline (t : Option ℚ) (pts : List Vec3)
      (mesh_faces : Option (List (List Vec3))) (virtual_children : List Entity)
  | insert (t : Option ℚ) (attribs : List Entity)
      (expansion : Option (List Entity))
  | dimension (t : Option ℚ) (expansion : Option (List Entity))
  | tag_storage (t : Option ℚ) (kind_code : ℕ)
  | unsupported (t : Option ℚ) (kind_code : ℕ)

/-- The raw DXF transparency attribute of an entity. -/
def Entity.transparency : Entity → Option ℚ
  | .line t _ _ => t
  | .point t _ => t
  | .circle t _ _ _ => t
  | .arc t _ _ _ _ _ => t
  | .ellipse t _ _ _ _ _ _ => t
  | .hatch t _ _ _ => t
  | .viewport t _ _ _ _ => t
  | .polyline t _ _ _ => t
  | .insert t _ _ => t
  | .dimension t _ => t
  | .tag_storage t _ => t
  | .unsupported t _ => t

/-- Models `child.transparency = v`: overwrite the raw transparency attribute
(frontend.py line 341 performs this with `0.0` on every virtual child of a
dimension-like entity). -/
def Entity.set_transparency : Entity → Option ℚ → Entity
  | .line _ a b, v => .line v a b
  | .point _ l, v => .point v l
  | .circle _ c r ex, v => .circle v c r ex
  | .arc _ c r sa ea ex, v => .arc v c r sa ea ex
  | .ellipse _ c m mf sp ep ex, v => .ellipse v c m mf sp ep ex
  | .hatch _ el ex ps, v => .hatch v el ex ps
  | .viewport _ c w h vd, v => .viewport v c w h vd
  | .polyline _ p m ch, v => .polyline v p m ch
  | .insert _ a ex, v => .insert v a ex
  | .dimension _ ex, v => .dimension v ex
  | .tag_storage _ k, v => .tag_storage v k
  | .unsupported _ k, v => .unsupported v k

/-- The diagnostic `print` calls of the frontend, tagged by site. -/
inductive LogKind where
  | unsupported_tag_storage
  | insert_expansion_failed
  | dim_expansion_failed
  | hatch_not_contiguous
  | viewport_null_vector
  | viewport_oblique
deriving DecidableEq

/-- One observable action of a traversal: a backend call, a render-context
push/pop, a diagnostic print, or an invocation of the caller-supplied
visibility filter (recorded with its result). -/
inductive BackendEvent where
  | set_current_entity (e : Entity) (ancestors : List Entity)
  | clear_current_entity
  | draw_line (a b : Vec3) (props : Properties)
  | draw_arc (center : Vec3) (width height axis_angle : ℚ)
      (angles : Option (ℚ × ℚ)) (props : Properties)
  | draw_point (location : Vec3) (props : Properties)
  | draw_filled_polygon (vertices : List Vec3) (props : Properties)
  | start_polyline
  | end_polyline
  | ignored_entity (e : Entity)
  | push_state (props : Properties)
  | pop_state
  | log_message (k : LogKind)
  | filter_call (e : Entity) (result : Bool)

/-- The mutable traversal state: the event trace so far, the shared
`parent_stack` list (mutated in place by composite handlers), and the number
of visibility-filter invocations made so far (the index fed to the stateful
filter model). -/
structure DrawState where
  trace : List BackendEvent
  parent_stack : List Entity
  filter_calls : ℕ

/-- The state at the start of a traversal. -/
def init_state : DrawState := ⟨[], [], 0⟩

/-- The frontend configuration: the optional caller-supplied visibility
filter (modelled as a function of the global invocation index, so stateful
callbacks are expressible) together with the collaborator functions consumed
through the `RenderContext` and math interfaces.  `ellipse_vertex i t` is the
point of a construction ellipse at parameter `t` (`ConstructionEllipse
.vertices`), `ocs_to_wcs extrusion p` the OCS-to-WCS conversion for a
non-default extrusion, `atan2_turns y x` the angle of `(x, y)` in turns and
`magnitude_of` the vector magnitude — all external math collaborators the
theorems hold for uniformly. -/
structure Frontend where
  visibility_filter : Option (ℕ → Entity → Bool)
  ctx_is_visible : Entity → Bool
  ctx_color : ℕ
  ellipse_vertex : EllipseConstr → ℚ → Vec3
  ocs_to_wcs : Vec3 → Vec3 → Vec3
  atan2_turns : ℚ → ℚ → ℚ
  magnitude_of : Vec3 → ℚ

/-- Source `self.circle_resolution` (frontend.py line 52): a full circle is
approximated by this many segments. -/
def circle_resolution : ℕ := 100

/-- Record one event at the end of the trace. -/
def emit (s : DrawState) (ev : BackendEvent) : DrawState :=
  { s with trace := s.trace ++ [ev] }

/-- Modelled from the spec: `RenderContext.resolve_all`
(`drawing/properties.py`, not under `src/`): the resolved transparency is the
entity's explicitly set raw transparency, else the inherited default (fully
opaque); visibility comes from the context's own resolution; the color stands
in for the remaining inherited attributes. -/
def resolve_all (f : Frontend) (e : Entity) : Properties :=
  { color := f.ctx_color
    transparency := e.transparency.getD 0
    is_visible := f.ctx_is_visible e }

/-- Source `Frontend._resolve_properties` (frontend.py lines 131-135): resolve via
the context, then — when a visibility filter is supplied — overwrite
`is_visible` with a fresh invocation of the filter. -/
def resolve_properties (f : Frontend) (e : Entity) (s : DrawState) :
    Properties × DrawState :=
  let props := resolve_all f e
  match f.visibility_filter with
  | none => (props, s)
  | some vf =>
      let r := vf s.filter_calls e
      ({ props with is_visible := r },
       { s with trace := s.trace ++ [.filter_call e r],
                filter_calls := s.filter_calls + 1 })

/-- Python `int()` applied to a rational: truncation toward zero. -/
def py_int (q : ℚ) : ℤ := if 0 ≤ q then ⌊q⌋ else ⌈q⌉

/-- Modelled from the spec: `ezdxf.math.linspace` (math collaborator, not
under `src/`): `n` uniformly spaced sample values from `a` to `b` inclusive
("uniform parameter-space sampling", spec §4.3). -/
def linspace (a b : ℚ) (n : ℕ) : List ℚ :=
  if n ≤ 1 then (List.range n).map (fun _ => a)
  else (List.range n).map (fun i : ℕ => a + (b - a) * (i : ℚ) / ((n : ℚ) - 1))

/-- The construction-ellipse of a CIRCLE / ARC / ELLIPSE entity
(frontend.py lines 154-166): circles and arcs go through
`ConstructionEllipse.from_arc` (full circle: angles 0..360 degrees, i.e.
parameters 0..1 turn), ellipses through their own `construction_tool()`. -/
def construction_ellipse : Entity → Option EllipseConstr
  | .circle _ c r ex => some ⟨c, ⟨r, 0, 0⟩, 1, ex, 0, 1⟩
  | .arc _ c r sa ea ex => some ⟨c, ⟨r, 0, 0⟩, 1, ex, sa, ea⟩
  | .ellipse _ c m mf sp ep ex => some ⟨c, m, mf, ex, sp, ep⟩
  | _ => none

/-- The 3D polyline approximation points of `draw_elliptic_arc_entity_3d`
(frontend.py lines 170-171): `segments = int((end_param - start_param) / tau *
circle_resolution)` and the ellipse is sampled at `max(4, segments + 1)`
uniformly spaced parameters (note: `linspace(a, b, n)` yields `n` points,
hence `segments + 1`). -/
def elliptic_arc_points (ev : EllipseConstr → ℚ → Vec3) (c : EllipseConstr) :
    List Vec3 :=
  let segments : ℤ := py_int ((c.end_param - c.start_param) * circle_resolution)
  (linspace c.start_param c.end_param (max 4 (segments + 1)).toNat).map (ev c)

/-- Source `Frontend.draw_line_entity` restricted to LINE (frontend.py lines
115-119); the XLINE/RAY branch concerns entity kinds outside this model. -/
def draw_line_entity (f : Frontend) (e : Entity) (s : DrawState) : DrawState :=
  let ps := resolve_properties f e s
  match e with
  | .line _ a b => emit ps.2 (.draw_line a b ps.1)
  | _ => ps.2

/-- Source `Frontend.draw_point_entity` (frontend.py lines 215-217). -/
def draw_point_entity (f : Frontend) (e : Entity) (s : DrawState) : DrawState :=
  let ps := resolve_properties f e s
  match e with
  | .point _ l => emit ps.2 (.draw_point l ps.1)
  | _ => ps.2

/-- Source `_get_arc_wcs_center` (frontend.py lines 356-363): the stored center,
converted from OCS when the entity carries a non-default extrusion.  The
source tests `dxf.hasattr('extrusion')`; an absent attribute defaults to +Z,
and the OCS of +Z is the identity (spec §4.3), so the test is modelled by
comparison with +Z. -/
def get_arc_wcs_center (f : Frontend) (center extrusion : Vec3) : Vec3 :=
  if extrusion = Z_AXIS then center else f.ocs_to_wcs extrusion center

/-- Models `normalize_angle` of `drawing/utils.py`, in turns.  Modelled from the
spec: "angle normalization into [0, 2pi)" (spec §4.3). -/
def normalize_angle (t : ℚ) : ℚ := t - ⌊t⌋

/-- Models `get_draw_angles` of `drawing/utils.py`.  Modelled from the spec:
"draw-angle-pair derivation that reverses start/end ordering when extrusion is
world -Z" (spec §4.3), in turns. -/
def get_draw_angles (sa ea : ℚ) (extrusion : Vec3) : ℚ × ℚ :=
  if extrusion.isclose NEG_Z_AXIS then
    (normalize_angle (1 - ea), normalize_angle (1 - sa))
  else (sa, ea)

/-- Source `Frontend.draw_elliptic_arc_entity_2d` (frontend.py lines 177-201). -/
def draw_elliptic_arc_entity_2d (f : Frontend) (e : Entity) (s : DrawState) :
    DrawState :=
  let ps := resolve_properties f e s
  match e with
  | .circle _ center r ex =>
      emit ps.2 (.draw_arc (get_arc_wcs_center f center ex) (2 * r) (2 * r)
        0 none ps.1)
  | .arc _ center r sa ea ex =>
      emit ps.2 (.draw_arc (get_arc_wcs_center f center ex) (2 * r) (2 * r)
        0 (some (get_draw_angles sa ea ex)) ps.1)
  | .ellipse _ center m mf sp ep ex =>
      let axis_angle := normalize_angle (f.atan2_turns m.y m.x)
      let width := 2 * f.magnitude_of m
      emit ps.2 (.draw_arc center width (mf * width) axis_angle
        (some (get_draw_angles sp ep ex)) ps.1)
  | _ => ps.2

/-- Source `Frontend.draw_elliptic_arc_entity_3d` (frontend.py lines 150-175):
approximate as a 3D polyline — sample the construction ellipse and draw
consecutive point pairs as line segments between a `start_polyline` /
`end_polyline` bracket. -/
def draw_elliptic_arc_entity_3d (f : Frontend) (e : Entity) (s : DrawState) :
    DrawState :=
  let ps := resolve_properties f e s
  match construction_ellipse e with
  | none => ps.2
  | some c =>
      let pts := elliptic_arc_points f.ellipse_vertex c
      let s := emit ps.2 .start_polyline
      let s := (pts.zip pts.tail).foldl
        (fun s ab => emit s (.draw_line ab.1 ab.2 ps.1)) s
      emit s .end_polyline

/-- The OCS-to-WCS conversion used by `draw_hatch_entity` (frontend.py lines
251-253): the identity for the default +Z extrusion ("no big speed penalty"),
the math collaborator otherwise. -/
def hatch_to_wcs (f : Frontend) (extrusion v : Vec3) : Vec3 :=
  if extrusion = Z_AXIS then v else f.ocs_to_wcs extrusion v

/-- The WCS vertex of an edge's start point at the hatch elevation
(frontend.py line 253). -/
def hatch_start_vertex (f : Frontend) (extrusion : Vec3) (elevation : ℚ)
    (ed : LineEdge) : Vec3 :=
  hatch_to_wcs f extrusion ⟨ed.sx, ed.sy, elevation⟩

/-- The WCS vertex of an edge's end point at the hatch elevation with its z
coordinate zeroed (frontend.py line 258). -/
def hatch_end_vertex (f : Frontend) (extrusion : Vec3) (elevation : ℚ)
    (ed : LineEdge) : Vec3 :=
  (hatch_to_wcs f extrusion ⟨ed.ex, ed.ey, elevation⟩).withZ 0

/-- One iteration of the edge loop of `draw_hatch_entity` (frontend.py lines
249-258), carried over `(state, vertices, last_vertex)`: when the previous
edge's endpoint is not close to this edge's start, warn and insert the
previous endpoint as a bridging vertex; then append this edge's start and
remember this edge's endpoint. -/
def hatch_edge_step (f : Frontend) (extrusion : Vec3) (elevation : ℚ)
    (acc : DrawState × List Vec3 × Option Vec3) (ed : LineEdge) :
    DrawState × List Vec3 × Option Vec3 :=
  let v := hatch_start_vertex f extrusion elevation ed
  let sv :=
    match acc.2.2 with
    | some lv =>
        if lv.isclose v then (acc.1, acc.2.1)
        else (emit acc.1 (.log_message .hatch_not_contiguous), acc.2.1 ++ [lv])
    | none => (acc.1, acc.2.1)
  (sv.1, sv.2 ++ [v], some (hatch_end_vertex f extrusion elevation ed))

/-- The per-boundary-path body of `draw_hatch_entity` (frontend.py lines
245-262): walk the edges, then — when any vertices were produced — append the
final endpoint when it is close to the first vertex, and draw the loop as one
filled polygon. -/
def draw_hatch_path (f : Frontend) (extrusion : Vec3) (elevation : ℚ)
    (props : Properties) (edges : List LineEdge) (s : DrawState) : DrawState :=
  let r := edges.foldl (hatch_edge_step f extrusion elevation) (s, [], none)
  match r.2.1, r.2.2 with
  | [], _ => r.1
  | v0 :: rest, some lv =>
      let vs := if lv.isclose v0 then (v0 :: rest) ++ [lv] else v0 :: rest
      emit r.1 (.draw_filled_polygon vs props)
  | _ :: _, none => r.1

/-- Source `Frontend.draw_hatch_entity` (frontend.py lines 236-262).  The deep copy
of the boundary paths and their normalization to line edges
(`polyline_to_edge_path` / `all_to_line_edges`, collaborator code) are
modelled by the entity storing the already-normalized edge paths. -/
def draw_hatch_entity (f : Frontend) (e : Entity) (s : DrawState) : DrawState :=
  let ps := resolve_properties f e s
  match e with
  | .hatch _ elevation extrusion paths =>
      paths.foldl (fun s p => draw_hatch_path f extrusion elevation ps.1 p s)
        ps.2
  | _ => ps.2

/-- The squared magnitude of a vector. -/
def mag_sq (v : Vec3) : ℚ := v.x * v.x + v.y * v.y + v.z * v.z

/-- The relative tolerance (1e-9) of Python's `math.isclose` defaults. -/
def rel_eps : ℚ := 1 / 1000000000

/-- The oblique-viewport test of `draw_viewport_entity` (frontend.py line
273), `math.isclose(view_vector.dot(Vector(0, 0, 1)), 1.0)` for the normalized
view vector `v / |v|`, in sqrt-free rational form.  Derivation: with
`m = |v| > 0` one has `|v.z| ≤ m`, hence `v.z / m ≤ 1` and
`max(|v.z / m|, 1) = 1`, so the isclose condition is
`1 - v.z / m ≤ 1e-9`, i.e. `v.z ≥ m * (1 - 1e-9)`; as the right side is
positive this is equivalent to `0 < v.z` together with the squared
inequality. -/
def aligned_with_pos_z (v : Vec3) : Bool :=
  decide (0 < v.z) &&
    decide ((1 - rel_eps) * (1 - rel_eps) * mag_sq v ≤ v.z * v.z)

/-- Source `Frontend.draw_viewport_entity` (frontend.py lines 264-283).  The
null-vector test `math.isclose(mag, 0.0)` uses Python's default `abs_tol=0`,
so it holds exactly for magnitude 0, i.e. squared magnitude 0.  Note that the
handler never resolves the entity's properties: the footprint polygon is drawn
with the fixed `VIEWPORT_COLOR`. -/
def draw_viewport_entity (e : Entity) (s : DrawState) : DrawState :=
  match e with
  | .viewport _ center width height view_direction =>
      if mag_sq view_direction = 0 then
        emit s (.log_message .viewport_null_vector)
      else if !(aligned_with_pos_z view_direction) then
        emit s (.log_message .viewport_oblique)
      else
        let dx := width / 2
        let dy := height / 2
        emit s (.draw_filled_polygon
          [⟨center.x - dx, center.y - dy, 0⟩, ⟨center.x + dx, center.y - dy, 0⟩,
           ⟨center.x + dx, center.y + dy, 0⟩, ⟨center.x - dx, center.y + dy, 0⟩,
           ⟨center.x - dx, center.y - dy, 0⟩] VIEWPORT_COLOR)
  | _ => s

/-- Source `Frontend.draw_mesh_builder_entity` (frontend.py lines 290-293): draw each
face as one filled polygon. -/
def draw_mesh_builder_entity (faces : List (List Vec3)) (props : Properties)
    (s : DrawState) : DrawState :=
  faces.foldl (fun s face => emit s (.draw_filled_polygon face props)) s

mutual

/-- Source `Frontend.draw_entity` (frontend.py lines 80-113): notify the backend of
the current entity (with the ancestor chain), dispatch on the entity kind —
any kind without a type-specific branch is reported via `ignored_entity`
(`DXFTagStorage` preserves an unsupported raw DXF type, so it also reaches the
`else` branch if handed to `draw_entity`) — then clear the current entity.
The first argument is the recursion fuel (see the module doc comment). -/
def draw_entity : ℕ → Frontend → Entity → DrawState → DrawState
  | 0, _, _, s => s
  | fuel + 1, f, e, s =>
    let s := emit s (.set_current_entity e s.parent_stack)
    let s :=
      match e with
      | .line .. => draw_line_entity f e s
      | .circle _ _ _ ex =>
          if is_spatial ex then draw_elliptic_arc_entity_3d f e s
          else draw_elliptic_arc_entity_2d f e s
      | .arc _ _ _ _ _ ex =>
          if is_spatial ex then draw_elliptic_arc_entity_3d f e s
          else draw_elliptic_arc_entity_2d f e s
      | .ellipse _ _ _ _ _ _ ex =>
          if is_spatial ex then draw_elliptic_arc_entity_3d f e s
          else draw_elliptic_arc_entity_2d f e s
      | .point .. => draw_point_entity f e s
      | .hatch .. => draw_hatch_entity f e s
      | .polyline .. => draw_polyline_entity fuel f e s
      | .insert .. => draw_composite_entity fuel f e s
      | .dimension .. => draw_composite_entity fuel f e s
      | .viewport .. => draw_viewport_entity e s
      | .tag_storage .. => emit s (.ignored_entity e)
      | .unsupported .. => emit s (.ignored_entity e)
    emit s .clear_current_entity

/-- Source `Frontend.draw_polyline_entity` (frontend.py lines 295-315): a polygon
mesh / poly-face mesh is drawn as mesh faces; otherwise the entity is appended
to the shared parent stack, announced as current, its virtual sub-entities are
drawn recursively, and the stack is popped again. -/
def draw_polyline_entity : ℕ → Frontend → Entity → DrawState → DrawState
  | 0, _, _, s => s
  | fuel + 1, f, e, s =>
    match e with
    | .polyline _ _ (some faces) _ =>
        let ps := resolve_properties f e s
        draw_mesh_builder_entity faces ps.1 ps.2
    | .polyline _ _ none children =>
        let s := { s with parent_stack := s.parent_stack ++ [e] }
        let s := emit s (.set_current_entity e s.parent_stack)
        let s := draw_each fuel f children s
        let s := { s with parent_stack := s.parent_stack.dropLast }
        emit s .clear_current_entity
    | _ => s

/-- Source `Frontend.draw_composite_entity` (frontend.py lines 317-353).  INSERT:
resolve and push this reference's properties as the new inherited context,
append it to the shared parent stack, draw the attached attributes, then
expand the block; when the expansion raises, log and `return` — note that this
early return reaches neither `parent_stack.pop()` nor `ctx.pop_state()`.
Dimension-like entities: collect the virtual children with their transparency
attribute overwritten to fully opaque (0.0); on failure log and return (no
partial draw); on success draw the children inside an append/pop of the
parent stack. -/
def draw_composite_entity : ℕ → Frontend → Entity → DrawState → DrawState
  | 0, _, _, s => s
  | fuel + 1, f, e, s =>
    match e with
    | .insert _ attribs expansion =>
        let ps := resolve_properties f e s
        let s := emit ps.2 (.push_state ps.1)
        let s := { s with parent_stack := s.parent_stack ++ [e] }
        let s := draw_each fuel f attribs s
        match expansion with
        | none => emit s (.log_message .insert_expansion_failed)
        | some children =>
            let s := draw_each fuel f children s
            let s := { s with parent_stack := s.parent_stack.dropLast }
            emit s .pop_state
    | .dimension _ expansion =>
        match expansion with
        | none => emit s (.log_message .dim_expansion_failed)
        | some cs =>
            let children := cs.map (fun c => c.set_transparency (some 0))
            let s := { s with parent_stack := s.parent_stack ++ [e] }
            let s := draw_each fuel f children s
            { s with parent_stack := s.parent_stack.dropLast }
    | _ => s

/-- Draw a list of entities in order with the same recursive `draw_entity`
call (the `for child in children` loops of the composite handlers). -/
def draw_each : ℕ → Frontend → List Entity → DrawState → DrawState
  | _, _, [], s => s
  | 0, _, _ :: _, s => s
  | fuel + 1, f, e :: rest, s => draw_each fuel f rest (draw_entity fuel f e s)

end

/-- Source `Frontend.draw_entities` (frontend.py lines 66-78): for each top-level
entity — `DXFTagStorage` is logged and skipped (the backend is *not*
notified); otherwise, with a visibility filter the entity enters the pipeline
exactly when the filter returns true (one filter invocation), and without one
when the context reports it visible.  Each admitted entity is drawn with a
fresh empty parent stack. -/
def draw_entities (fuel : ℕ) (f : Frontend) (es : List Entity)
    (s : DrawState) : DrawState :=
  es.foldl (fun s e =>
    match e with
    | .tag_storage .. => emit s (.log_message .unsupported_tag_storage)
    | _ =>
      match f.visibility_filter with
      | some vf =>
          let r := vf s.filter_calls e
          let s := { s with trace := s.trace ++ [.filter_call e r],
                            filter_calls := s.filter_calls + 1 }
          if r then draw_entity fuel f e { s with parent_stack := [] } else s
      | none =>
          if f.ctx_is_visible e then
            draw_entity fuel f e { s with parent_stack := [] }
          else s) s

/-! ## Event counting and concrete instantiations -/

/-- Is the event a `push_state` call on the render context? -/
def is_push : BackendEvent → Bool
  | .push_state _ => true
  | _ => false

/-- Is the event a `pop_state` call on the render context? -/
def is_pop : BackendEvent → Bool
  | .pop_state => true
  | _ => false

/-- Is the event one of the backend draw calls (`draw_line`, `draw_arc`,
`draw_point`, `draw_filled_polygon`)? -/
def is_draw_call : BackendEvent → Bool
  | .draw_line .. => true
  | .draw_arc .. => true
  | .draw_point .. => true
  | .draw_filled_polygon .. => true
  | _ => false

/-- Is the event an `ignored_entity` report to the backend? -/
def is_ignored_entity : BackendEvent → Bool
  | .ignored_entity _ => true
  | _ => false

/-- Is the event an invocation of the caller-supplied visibility filter? -/
def is_filter_call : BackendEvent → Bool
  | .filter_call .. => true
  | _ => false

/-- Is the event a `draw_filled_polygon` call? -/
def is_filled_polygon : BackendEvent → Bool
  | .draw_filled_polygon .. => true
  | _ => false

/-- Is the event the hatch-discontinuity warning print? -/
def is_hatch_warning : BackendEvent → Bool
  | .log_message k => k = LogKind.hatch_not_contiguous
  | _ => false

/-- Count the events of a trace satisfying a predicate. -/
def count_events (p : BackendEvent → Bool) (t : List BackendEvent) : ℕ :=
  t.countP p

/-- A concrete frontend instantiation (no visibility filter, everything
visible) used by the closed evaluation theorems below. -/
def test_frontend : Frontend :=
  { visibility_filter := none, ctx_is_visible := fun _ => true,
    ctx_color := 7, ellipse_vertex := fun _ t => ⟨t, 0, 0⟩,
    ocs_to_wcs := fun _ v => v, atan2_turns := fun _ _ => 0,
    magnitude_of := fun _ => 0 }

/-- An INSERT whose block expansion raises (`virtual_entities` fails). -/
def failing_insert : Entity := .insert none [] none

/-- A plain line entity used as the sibling drawn after a failed insert. -/
def sibling_line : Entity := .line none ⟨0, 0, 0⟩ ⟨1, 0, 0⟩

/-- An INSERT whose expansion succeeds and yields a failing insert followed
by a line sibling. -/
def outer_insert : Entity := .insert none [] (some [failing_insert, sibling_line])

/-! ## C1 / C2: the INSERT expansion-failure leak -/

/-- C1: the claim states that across every top-level traversal the number of
`push_state` calls equals the number of `pop_state` calls, including when an
Insert's expansion raises.  The code violates this: `draw_composite_entity`
returns from the exception handler before reaching `pop_state`
(frontend.py lines 325-333), so a single INSERT whose `virtual_entities()`
raises produces one `push_state` and zero `pop_state` calls. -/
theorem C1_insert_failure_leaves_unbalanced_push :
    count_events is_push
      (draw_entities 10 test_frontend [failing_insert] init_state).trace = 1 ∧
    count_events is_pop
      (draw_entities 10 test_frontend [failing_insert] init_state).trace = 0 :=
  ⟨rfl, rfl⟩

/-- C2: the claim states that an entity appended to the ancestor chain by a
composite handler is removed again on every exit path, so no sibling observes
another subtree's ancestor mutation.  The code violates this: the INSERT
failure path returns before `parent_stack.pop()`, so the sibling drawn next
is announced with the failed insert still on its ancestor chain — the trace
below shows `sibling_line` becoming current with ancestors
`[outer_insert, failing_insert]` instead of `[outer_insert]`. -/
theorem C2_insert_failure_leaks_ancestor_chain :
    (draw_entities 10 test_frontend [outer_insert] init_state).trace =
      [.set_current_entity outer_insert [],
       .push_state ⟨7, 0, true⟩,
       .set_current_entity failing_insert [outer_insert],
       .push_state ⟨7, 0, true⟩,
       .log_message .insert_expansion_failed,
       .clear_current_entity,
       .set_current_entity sibling_line [outer_insert, failing_insert],
       .draw_line ⟨0, 0, 0⟩ ⟨1, 0, 0⟩ ⟨7, 0, true⟩,
       .clear_current_entity,
       .pop_state,
       .clear_current_entity] ∧
    [outer_insert, failing_insert] ≠ [outer_insert] := by
  refine ⟨rfl, ?_⟩
  simp

/-! ## C5: tag storage at the top level -/

/-- A concrete opaque raw entity (`DXFTagStorage`). -/
def tag_entity : Entity := .tag_storage none 990

/-- C5 counterexample: the claim states that `draw_entities` reports an
opaque/unsupported raw entity *to the backend* as ignored.  The code only
prints a diagnostic and `continue`s (frontend.py lines 68-71): the whole
trace of drawing one `DXFTagStorage` is the single log message — in
particular zero `ignored_entity` backend calls. -/
theorem C5_no_backend_report_for_tag_storage :
    (draw_entities 10 test_frontend [tag_entity] init_state).trace =
      [.log_message .unsupported_tag_storage] ∧
    count_events is_ignored_entity
      (draw_entities 10 test_frontend [tag_entity] init_state).trace = 0 :=
  ⟨rfl, rfl⟩

/-- C5 (amended): a `DXFTagStorage` entity in the top-level sequence is
logged and skipped without any backend notification, property resolution or
recursion — the traversal state after it is exactly the incoming state plus
the one log message, and the remaining entities are processed from there. -/
theorem C5_tag_storage_logged_and_skipped (fuel : ℕ) (f : Frontend)
    (t : Option ℚ) (k : ℕ) (es : List Entity) (s : DrawState) :
    draw_entities fuel f (.tag_storage t k :: es) s =
      draw_entities fuel f es (emit s (.log_message .unsupported_tag_storage)) :=
  rfl

/-! ## C6: unsupported entity kinds in `draw_entity` -/

/-- C6: an entity whose kind is not handled by any type-specific branch of
`draw_entity` is reported via `ignored_entity` exactly once, with zero draw
calls, and the dispatch is still bracketed by a set-current-entity /
clear-current-entity pair. -/
theorem C6_unsupported_kind_ignored_once (fuel : ℕ) (f : Frontend)
    (t : Option ℚ) (k : ℕ) (s : DrawState) :
    (draw_entity (fuel + 1) f (.unsupported t k) s).trace =
      s.trace ++ [.set_current_entity (.unsupported t k) s.parent_stack,
                  .ignored_entity (.unsupported t k),
                  .clear_current_entity] ∧
    count_events is_ignored_entity
      [.set_current_entity (.unsupported t k) s.parent_stack,
       .ignored_entity (.unsupported t k),
       .clear_current_entity] = 1 ∧
    count_events is_draw_call
      [.set_current_entity (.unsupported t k) s.parent_stack,
       .ignored_entity (.unsupported t k),
       .clear_current_entity] = 0 := by
  refine ⟨?_, rfl, rfl⟩
  simp [draw_entity, emit]

/-! ## C9: primitive extraction for unsupported entities -/

/-- Modelled from the spec: the `Primitive` of the `disassemble` module
(spec §4.2; the module is not under `src/`, only its tests are): an optional
vector path and an optional mesh.  The mesh is modelled at the granularity
the frontend consumes — a list of faces, each a vertex list.  For unsupported
entity kinds both parts are absent. -/
structure Primitive where
  path : Option (List Vec3)
  mesh : Option (List (List Vec3))
deriving DecidableEq

/-- Modelled from the spec: `Primitive.vertices()` — the path vertices when a
path is present, else the mesh vertices, else the empty sequence
(spec §4.2). -/
def Primitive.vertices (p : Primitive) : List Vec3 :=
  match p.path with
  | some vs => vs
  | none =>
    match p.mesh with
    | some faces => faces.flatten
    | none => []

/-- Modelled from the spec: `disassemble.make_primitive` (spec §4.2), over
the entity kinds of this model: point → single-point path; line → the two
stored endpoints; non-mesh polyline → path following the stored vertices;
circle/arc/ellipse → path sampled at the default resolution; polygon-mesh
polyline → mesh; every other kind (including opaque `tag_storage` raw
entities) → `path` and `mesh` both absent.  The function is total: extraction
never raises. -/
def make_primitive (ev : EllipseConstr → ℚ → Vec3) : Entity → Primitive
  | .point _ l => ⟨some [l], none⟩
  | .line _ a b => ⟨some [a, b], none⟩
  | .polyline _ pts none _ => ⟨some pts, none⟩
  | .polyline _ _ (some faces) _ => ⟨none, some faces⟩
  | .circle _ c r ex => ⟨some (elliptic_arc_points ev ⟨c, ⟨r, 0, 0⟩, 1, ex, 0, 1⟩), none⟩
  | .arc _ c r sa ea ex =>
      ⟨some (elliptic_arc_points ev ⟨c, ⟨r, 0, 0⟩, 1, ex, sa, ea⟩), none⟩
  | .ellipse _ c m mf sp ep ex =>
      ⟨some (elliptic_arc_points ev ⟨c, m, mf, ex, sp, ep⟩), none⟩
  | _ => ⟨none, none⟩

/-- Modelled from the spec: `disassemble.to_primitives` — batch extraction,
one primitive per entity. -/
def to_primitives (ev : EllipseConstr → ℚ → Vec3) (es : List Entity) :
    List Primitive :=
  es.map (make_primitive ev)

/-- C9: `make_primitive` on an entity of an unsupported kind (including an
opaque `DXFTagStorage` raw entity) yields a primitive with `path` and `mesh`
both absent and an empty vertex sequence (the function is total, so
extraction never raises), and batch extraction of `n` such entities yields
`n` primitives with a combined vertex count of 0. -/
theorem C9_unsupported_primitive_empty (ev : EllipseConstr → ℚ → Vec3)
    (t : Option ℚ) (k : ℕ) (n : ℕ) :
    make_primitive ev (.tag_storage t k) = ⟨none, none⟩ ∧
    make_primitive ev (.unsupported t k) = ⟨none, none⟩ ∧
    (make_primitive ev (.tag_storage t k)).vertices = [] ∧
    (make_primitive ev (.unsupported t k)).vertices = [] ∧
    (to_primitives ev (List.replicate n (.unsupported t k))).length = n ∧
    ((to_primitives ev (List.replicate n (.unsupported t k))).map
      (fun p => p.vertices.length)).sum = 0 := by
  refine ⟨rfl, rfl, rfl, rfl, by simp [to_primitives], ?_⟩
  simp [to_primitives, make_primitive, Primitive.vertices]

/-! ## C10: double evaluation of the visibility override -/

/-- A visibility filter that always admits. -/
def always_filter : ℕ → Entity → Bool := fun _ _ => true

/-- The test frontend with the always-admitting visibility filter. -/
def filter_frontend : Frontend :=
  { test_frontend with visibility_filter := some always_filter }

/-- A concrete entity of an unsupported kind. -/
def unsupported_entity : Entity := .unsupported none 991

/-- A visibility filter that answers true on its first invocation and false
afterwards (a stateful, non-deterministic callback). -/
def flip_filter : ℕ → Entity → Bool := fun i _ => decide (i = 0)

/-- The test frontend with the flip filter. -/
def flip_frontend : Frontend :=
  { test_frontend with visibility_filter := some flip_filter }

/-- C10 counterexample: the claim states the override predicate is evaluated
twice per admitted top-level entity.  An admitted entity of an unsupported
kind reaches `ignored_entity` without any property resolution
(frontend.py lines 111-112), so the filter runs only once for it. -/
theorem C10_admitted_unsupported_single_evaluation :
    (draw_entities 10 filter_frontend [unsupported_entity] init_state).trace =
      [.filter_call unsupported_entity true,
       .set_current_entity unsupported_entity [],
       .ignored_entity unsupported_entity,
       .clear_current_entity] ∧
    count_events is_filter_call
      (draw_entities 10 filter_frontend [unsupported_entity] init_state).trace
      = 1 ∧
    (1 : ℕ) ≠ 2 :=
  ⟨rfl, rfl, by decide⟩

/-- Helper: the full trace of drawing one admitted line entity under a
visibility filter: the filter is invoked once for admission and once more
inside `_resolve_properties`, whose (second) result becomes the resolved
`is_visible` of the drawn line. -/
theorem filtered_line_trace (vf : ℕ → Entity → Bool) (f : Frontend)
    (t : Option ℚ) (a b : Vec3) (s : DrawState) (fuel : ℕ)
    (h : f.visibility_filter = some vf)
    (h2 : vf s.filter_calls (.line t a b) = true) :
    (draw_entities (fuel + 1) f [.line t a b] s).trace =
      s.trace ++
        [.filter_call (.line t a b) true,
         .set_current_entity (.line t a b) [],
         .filter_call (.line t a b) (vf (s.filter_calls + 1) (.line t a b)),
         .draw_line a b { resolve_all f (.line t a b) with
           is_visible := vf (s.filter_calls + 1) (.line t a b) },
         .clear_current_entity] ∧
    (draw_entities (fuel + 1) f [.line t a b] s).filter_calls =
      s.filter_calls + 2 := by
  constructor <;>
    simp [draw_entities, draw_entity, draw_line_entity, resolve_properties,
      emit, h, h2, List.append_assoc]

/-- C10 (amended): with a visibility override supplied, the override runs
once per top-level entity to decide admission and once more each time the
entity's properties are resolved; for an admitted line entity that is exactly
twice, and the second result — not the cached admission result — becomes the
resolved `is_visible`.  Hence, when the override is deterministic, every
admitted line is drawn with `is_visible = true`; the final conjunct shows a
non-deterministic override (true then false) whose admitted entity is drawn
with `is_visible = false`, so the guarantee needs determinism.  (Admitted
entities whose handler never resolves properties — unsupported kinds,
viewports — see only the single admission evaluation.) -/
theorem C10_override_double_evaluation :
    (∀ (vf : ℕ → Entity → Bool) (f : Frontend) (t : Option ℚ) (a b : Vec3)
        (s : DrawState) (fuel : ℕ),
      f.visibility_filter = some vf →
      vf s.filter_calls (.line t a b) = true →
      (draw_entities (fuel + 1) f [.line t a b] s).trace =
        s.trace ++
          [.filter_call (.line t a b) true,
           .set_current_entity (.line t a b) [],
           .filter_call (.line t a b) (vf (s.filter_calls + 1) (.line t a b)),
           .draw_line a b { resolve_all f (.line t a b) with
             is_visible := vf (s.filter_calls + 1) (.line t a b) },
           .clear_current_entity] ∧
      (draw_entities (fuel + 1) f [.line t a b] s).filter_calls =
        s.filter_calls + 2) ∧
    (∀ (vf : ℕ → Entity → Bool) (f : Frontend) (t : Option ℚ) (a b : Vec3)
        (s : DrawState) (fuel : ℕ),
      f.visibility_filter = some vf →
      (∀ i j e, vf i e = vf j e) →
      vf s.filter_calls (.line t a b) = true →
      (draw_entities (fuel + 1) f [.line t a b] s).trace =
        s.trace ++
          [.filter_call (.line t a b) true,
           .set_current_entity (.line t a b) [],
           .filter_call (.line t a b) true,
           .draw_line a b { resolve_all f (.line t a b) with is_visible := true },
           .clear_current_entity]) ∧
    ((draw_entities 10 flip_frontend [sibling_line] init_state).trace =
      [.filter_call sibling_line true,
       .set_current_entity sibling_line [],
       .filter_call sibling_line false,
       .draw_line ⟨0, 0, 0⟩ ⟨1, 0, 0⟩ ⟨7, 0, false⟩,
       .clear_current_entity]) := by
  refine ⟨fun vf f t a b s fuel h h2 => filtered_line_trace vf f t a b s fuel h h2,
    fun vf f t a b s fuel h hdet h2 => ?_, rfl⟩
  have h3 := (filtered_line_trace vf f t a b s fuel h h2).1
  rwa [hdet (s.filter_calls + 1) s.filter_calls, h2] at h3

/-- C10 witness: the amended theorem applied at a concrete admitted line
under the concrete always-admitting filter. -/
theorem C10_override_double_evaluation_witness :
    (draw_entities 11 filter_frontend [sibling_line] init_state).trace =
      [.filter_call sibling_line true,
       .set_current_entity sibling_line [],
       .filter_call sibling_line true,
       .draw_line ⟨0, 0, 0⟩ ⟨1, 0, 0⟩ ⟨7, 0, true⟩,
       .clear_current_entity] := by
  have h := C10_override_double_evaluation.2.1 always_filter filter_frontend
    none ⟨0, 0, 0⟩ ⟨1, 0, 0⟩ init_state 10 rfl (fun _ _ _ => rfl) rfl
  simpa [init_state, resolve_all, filter_frontend, test_frontend,
    sibling_line] using h

/-! ## C8: viewport rendering -/

/-- C8: drawing a VIEWPORT entity — a (near-)zero view-direction vector is
skipped with a warning and no draw calls; a view direction not aligned with
+Z is skipped with a warning and no draw calls; otherwise exactly one filled
polygon is drawn, whose vertex list is the closed 5-vertex axis-aligned
rectangle computed from center/width/height, with the fixed
`VIEWPORT_COLOR` instead of the entity's resolved properties.  (With
Python's default tolerances `math.isclose(mag, 0.0)` holds exactly for
magnitude zero, modelled as `mag_sq = 0`; `aligned_with_pos_z` is the exact
rational form of the normalized-dot test.) -/
theorem C8_viewport_cases (fuel : ℕ) (f : Frontend) (t : Option ℚ)
    (c : Vec3) (w h : ℚ) (vd : Vec3) (s : DrawState) :
    (mag_sq vd = 0 →
      (draw_entity (fuel + 1) f (.viewport t c w h vd) s).trace =
        s.trace ++ [.set_current_entity (.viewport t c w h vd) s.parent_stack,
                    .log_message .viewport_null_vector,
                    .clear_current_entity] ∧
      count_events is_draw_call
        [.set_current_entity (.viewport t c w h vd) s.parent_stack,
         .log_message .viewport_null_vector, .clear_current_entity] = 0) ∧
    (mag_sq vd ≠ 0 → aligned_with_pos_z vd = false →
      (draw_entity (fuel + 1) f (.viewport t c w h vd) s).trace =
        s.trace ++ [.set_current_entity (.viewport t c w h vd) s.parent_stack,
                    .log_message .viewport_oblique,
                    .clear_current_entity] ∧
      count_events is_draw_call
        [.set_current_entity (.viewport t c w h vd) s.parent_stack,
         .log_message .viewport_oblique, .clear_current_entity] = 0) ∧
    (mag_sq vd ≠ 0 → aligned_with_pos_z vd = true →
      (draw_entity (fuel + 1) f (.viewport t c w h vd) s).trace =
        s.trace ++
          [.set_current_entity (.viewport t c w h vd) s.parent_stack,
           .draw_filled_polygon
             [⟨c.x - w / 2, c.y - h / 2, 0⟩, ⟨c.x + w / 2, c.y - h / 2, 0⟩,
              ⟨c.x + w / 2, c.y + h / 2, 0⟩, ⟨c.x - w / 2, c.y + h / 2, 0⟩,
              ⟨c.x - w / 2, c.y - h / 2, 0⟩] VIEWPORT_COLOR,
           .clear_current_entity] ∧
      count_events is_filled_polygon
        [.set_current_entity (.viewport t c w h vd) s.parent_stack,
         .draw_filled_polygon
           [⟨c.x - w / 2, c.y - h / 2, 0⟩, ⟨c.x + w / 2, c.y - h / 2, 0⟩,
            ⟨c.x + w / 2, c.y + h / 2, 0⟩, ⟨c.x - w / 2, c.y + h / 2, 0⟩,
            ⟨c.x - w / 2, c.y - h / 2, 0⟩] VIEWPORT_COLOR,
         .clear_current_entity] = 1) := by
  refine ⟨fun h0 => ⟨?_, rfl⟩, fun h0 h1 => ⟨?_, rfl⟩, fun h0 h1 => ⟨?_, rfl⟩⟩ <;>
    simp [draw_entity, draw_viewport_entity, emit, h0, List.append_assoc, *]

/-- C8 witness: the three cases of the viewport theorem at concrete inputs —
a null view vector, the oblique direction (1, 0, 0), and the aligned
direction (0, 0, 1) for a 2x4 viewport centered at (3, 5). -/
theorem C8_viewport_cases_witness :
    ((draw_entity 1 test_frontend (.viewport none ⟨3, 5, 0⟩ 2 4 ⟨0, 0, 0⟩)
        init_state).trace =
      [.set_current_entity (.viewport none ⟨3, 5, 0⟩ 2 4 ⟨0, 0, 0⟩) [],
       .log_message .viewport_null_vector, .clear_current_entity]) ∧
    ((draw_entity 1 test_frontend (.viewport none ⟨3, 5, 0⟩ 2 4 ⟨1, 0, 0⟩)
        init_state).trace =
      [.set_current_entity (.viewport none ⟨3, 5, 0⟩ 2 4 ⟨1, 0, 0⟩) [],
       .log_message .viewport_oblique, .clear_current_entity]) ∧
    ((draw_entity 1 test_frontend (.viewport none ⟨3, 5, 0⟩ 2 4 ⟨0, 0, 1⟩)
        init_state).trace =
      [.set_current_entity (.viewport none ⟨3, 5, 0⟩ 2 4 ⟨0, 0, 1⟩) [],
       .draw_filled_polygon
         [⟨2, 3, 0⟩, ⟨4, 3, 0⟩, ⟨4, 7, 0⟩, ⟨2, 7, 0⟩, ⟨2, 3, 0⟩]
         VIEWPORT_COLOR,
       .clear_current_entity]) := by
  obtain ⟨h1, -⟩ := (C8_viewport_cases 0 test_frontend none ⟨3, 5, 0⟩ 2 4
    ⟨0, 0, 0⟩ init_state).1 (by norm_num [mag_sq])
  obtain ⟨h2, -⟩ := (C8_viewport_cases 0 test_frontend none ⟨3, 5, 0⟩ 2 4
    ⟨1, 0, 0⟩ init_state).2.1 (by norm_num [mag_sq])
    (by norm_num [aligned_with_pos_z, rel_eps, mag_sq])
  obtain ⟨h3, -⟩ := (C8_viewport_cases 0 test_frontend none ⟨3, 5, 0⟩ 2 4
    ⟨0, 0, 1⟩ init_state).2.2 (by norm_num [mag_sq])
    (by norm_num [aligned_with_pos_z, rel_eps, mag_sq])
  refine ⟨h1.trans (by norm_num [init_state]),
    h2.trans (by norm_num [init_state]), h3.trans ?_⟩
  norm_num [init_state]

/-! ## C4: dimension-like children are forced opaque -/

/-- Overwriting the raw transparency attribute stores exactly the new
value, whatever the entity kind. -/
theorem set_transparency_transparency (c : Entity) (v : Option ℚ) :
    (c.set_transparency v).transparency = v := by
  cases c <;> rfl

/-- A line child with explicitly set transparency 1/2. -/
def half_transparent_line : Entity := .line (some (1 / 2)) ⟨0, 0, 0⟩ ⟨1, 0, 0⟩

/-- A dimension-like entity whose expansion yields the half-transparent
line. -/
def dim_with_child : Entity := .dimension none (some [half_transparent_line])

/-- C4 counterexample: the claim states that a virtual child of a
dimension-like entity keeps its explicitly set transparency.  The code
overwrites every child's transparency with 0.0 unconditionally
(frontend.py line 341): the child below was explicitly set to 1/2 yet is
announced with its transparency attribute overwritten to 0 and drawn with
resolved transparency 0. -/
theorem C4_explicit_transparency_overwritten :
    (draw_entities 10 test_frontend [dim_with_child] init_state).trace =
      [.set_current_entity dim_with_child [],
       .set_current_entity (.line (some 0) ⟨0, 0, 0⟩ ⟨1, 0, 0⟩) [dim_with_child],
       .draw_line ⟨0, 0, 0⟩ ⟨1, 0, 0⟩ ⟨7, 0, true⟩,
       .clear_current_entity,
       .clear_current_entity] ∧
    half_transparent_line.transparency = some (1 / 2) ∧
    ((1 : ℚ) / 2 ≠ 0) :=
  ⟨rfl, rfl, by norm_num⟩

/-- C4 (amended): a dimension-like composite with a successful expansion
draws exactly the expanded children with their transparency attribute
overwritten to fully opaque (0.0) — unconditionally, whether or not a child
had an explicitly set transparency — and every such child resolves to
transparency 0 whatever render context and filter are in effect. -/
theorem C4_dimension_children_forced_opaque (fuel : ℕ) (f : Frontend)
    (t : Option ℚ) (cs : List Entity) (s : DrawState) :
    draw_composite_entity (fuel + 1) f (.dimension t (some cs)) s =
      (let s1 := { s with
        parent_stack := s.parent_stack ++ [.dimension t (some cs)] }
       let s2 := draw_each fuel f
         (cs.map (fun c => c.set_transparency (some 0))) s1
       { s2 with parent_stack := s2.parent_stack.dropLast }) ∧
    (∀ c : Entity, (c.set_transparency (some 0)).transparency = some 0) ∧
    (∀ (f2 : Frontend) (c : Entity) (s2 : DrawState),
      (resolve_properties f2 (c.set_transparency (some 0)) s2).1.transparency
        = 0) := by
  refine ⟨rfl, fun c => set_transparency_transparency c (some 0),
    fun f2 c s2 => ?_⟩
  unfold resolve_properties resolve_all
  cases f2.visibility_filter <;>
    simp [set_transparency_transparency]

/-! ## C3: spatial circle/arc/ellipse sampling -/

/-- Emitting one event per list element appends exactly the mapped event list
to the trace. -/
theorem foldl_emit_eq {α : Type} (g : α → BackendEvent) (l : List α)
    (s : DrawState) :
    l.foldl (fun s a => emit s (g a)) s =
      { s with trace := s.trace ++ l.map g } := by
  induction l generalizing s with
  | nil => simp [emit]
  | cons a l ih =>
    rw [List.foldl_cons, ih]
    simp [emit]

/-- Helper: `linspace` yields exactly the requested number of samples. -/
theorem linspace_length (a b : ℚ) (n : ℕ) : (linspace a b n).length = n := by
  unfold linspace
  by_cases h : n ≤ 1
  · rw [if_pos h, List.length_map, List.length_range]
  · rw [if_neg h, List.length_map, List.length_range]

/-- The number of points `draw_elliptic_arc_entity_3d` samples. -/
theorem elliptic_arc_points_length (ev : EllipseConstr → ℚ → Vec3)
    (c : EllipseConstr) :
    (elliptic_arc_points ev c).length =
      (max 4 (py_int ((c.end_param - c.start_param) * circle_resolution) + 1)).toNat := by
  simp [elliptic_arc_points, linspace_length]

/-- C3 counterexample: the claim predicts
`max(4, round((endParam - startParam)/2pi * circleResolution))` sample
points.  For a full circle (parameter span one turn) at the default
resolution 100 that is 100 points, but the code computes
`max(4, int(...) + 1)` (frontend.py lines 170-171) and samples 101 points,
drawing 100 line segments. -/
theorem C3_full_circle_sample_count_mismatch :
    (elliptic_arc_points test_frontend.ellipse_vertex
      ⟨⟨0, 0, 0⟩, ⟨1, 0, 0⟩, 1, ⟨1, 0, 0⟩, 0, 1⟩).length = 101 ∧
    (max 4 (round (((1 : ℚ) - 0) * circle_resolution))).toNat = 100 ∧
    (101 : ℕ) ≠ 100 := by
  refine ⟨?_, ?_, by decide⟩
  · rw [elliptic_arc_points_length]
    have h : py_int (((1 : ℚ) - 0) * (circle_resolution : ℚ)) = 100 := by
      norm_num [py_int, circle_resolution]
    rw [h]
    decide
  · have h : round (((1 : ℚ) - 0) * (circle_resolution : ℚ)) = 100 := by
      norm_num [circle_resolution]
    rw [h]
    decide

/-- C3 (amended): for every circle/arc/ellipse entity with an out-of-plane
extrusion, `draw_entity` hands the entity to the 3D handler, which samples
its construction ellipse at exactly
`max(4, int((endParam - startParam)/2pi * circleResolution) + 1)` uniformly
spaced parameters (`int` truncates toward zero; `linspace` includes both
endpoints, hence the `+ 1`) and draws the consecutive point pairs as line
segments bracketed by exactly one `start_polyline` and one `end_polyline`
notification. -/
theorem C3_spatial_arc_sampling :
    (∀ (f : Frontend) (e : Entity) (c : EllipseConstr) (s : DrawState),
      construction_ellipse e = some c →
      (draw_elliptic_arc_entity_3d f e s).trace =
        (resolve_properties f e s).2.trace ++
          [.start_polyline] ++
          ((elliptic_arc_points f.ellipse_vertex c).zip
            (elliptic_arc_points f.ellipse_vertex c).tail).map
            (fun ab => .draw_line ab.1 ab.2 (resolve_properties f e s).1) ++
          [.end_polyline] ∧
      (elliptic_arc_points f.ellipse_vertex c).length =
        (max 4 (py_int ((c.end_param - c.start_param) * circle_resolution)
          + 1)).toNat ∧
      elliptic_arc_points f.ellipse_vertex c =
        (linspace c.start_param c.end_param
          (max 4 (py_int ((c.end_param - c.start_param) * circle_resolution)
            + 1)).toNat).map (f.ellipse_vertex c)) ∧
    (∀ (fuel : ℕ) (f : Frontend) (t : Option ℚ) (cen : Vec3) (r : ℚ)
        (ex : Vec3) (s : DrawState),
      is_spatial ex = true →
      draw_entity (fuel + 1) f (.circle t cen r ex) s =
        emit (draw_elliptic_arc_entity_3d f (.circle t cen r ex)
          (emit s (.set_current_entity (.circle t cen r ex) s.parent_stack)))
          .clear_current_entity) ∧
    (∀ (fuel : ℕ) (f : Frontend) (t : Option ℚ) (cen : Vec3) (r sa ea : ℚ)
        (ex : Vec3) (s : DrawState),
      is_spatial ex = true →
      draw_entity (fuel + 1) f (.arc t cen r sa ea ex) s =
        emit (draw_elliptic_arc_entity_3d f (.arc t cen r sa ea ex)
          (emit s (.set_current_entity (.arc t cen r sa ea ex) s.parent_stack)))
          .clear_current_entity) ∧
    (∀ (fuel : ℕ) (f : Frontend) (t : Option ℚ) (cen m : Vec3)
        (mf sp ep : ℚ) (ex : Vec3) (s : DrawState),
      is_spatial ex = true →
      draw_entity (fuel + 1) f (.ellipse t cen m mf sp ep ex) s =
        emit (draw_elliptic_arc_entity_3d f (.ellipse t cen m mf sp ep ex)
          (emit s (.set_current_entity (.ellipse t cen m mf sp ep ex)
            s.parent_stack)))
          .clear_current_entity) := by
  refine ⟨fun f e c s hc => ⟨?_, elliptic_arc_points_length _ _, rfl⟩,
    fun fuel f t cen r ex s hx => ?_,
    fun fuel f t cen r sa ea ex s hx => ?_,
    fun fuel f t cen m mf sp ep ex s hx => ?_⟩
  · simp only [draw_elliptic_arc_entity_3d, hc]
    rw [foldl_emit_eq]
    simp [emit]
  all_goals simp [draw_entity, hx]

/-- The +X axis is a spatial (out-of-plane) extrusion. -/
theorem is_spatial_x_axis : is_spatial ⟨1, 0, 0⟩ = true := by
  norm_num [is_spatial, Vec3.isclose, Z_AXIS, NEG_Z_AXIS, vec_tol]

/-- C3 witness: the amended theorem applied to a concrete full circle of
radius 1 with extrusion (1, 0, 0) under the test frontend. -/
theorem C3_spatial_arc_sampling_witness :
    (draw_elliptic_arc_entity_3d test_frontend
      (.circle none ⟨0, 0, 0⟩ 1 ⟨1, 0, 0⟩) init_state).trace =
      (resolve_properties test_frontend
        (.circle none ⟨0, 0, 0⟩ 1 ⟨1, 0, 0⟩) init_state).2.trace ++
        [.start_polyline] ++
        ((elliptic_arc_points test_frontend.ellipse_vertex
          ⟨⟨0, 0, 0⟩, ⟨1, 0, 0⟩, 1, ⟨1, 0, 0⟩, 0, 1⟩).zip
          (elliptic_arc_points test_frontend.ellipse_vertex
            ⟨⟨0, 0, 0⟩, ⟨1, 0, 0⟩, 1, ⟨1, 0, 0⟩, 0, 1⟩).tail).map
          (fun ab => .draw_line ab.1 ab.2
            (resolve_properties test_frontend
              (.circle none ⟨0, 0, 0⟩ 1 ⟨1, 0, 0⟩) init_state).1) ++
        [.end_polyline] ∧
    draw_entity 3 test_frontend (.circle none ⟨0, 0, 0⟩ 1 ⟨1, 0, 0⟩)
        init_state =
      emit (draw_elliptic_arc_entity_3d test_frontend
        (.circle none ⟨0, 0, 0⟩ 1 ⟨1, 0, 0⟩)
        (emit init_state (.set_current_entity
          (.circle none ⟨0, 0, 0⟩ 1 ⟨1, 0, 0⟩) init_state.parent_stack)))
        .clear_current_entity :=
  ⟨(C3_spatial_arc_sampling.1 test_frontend (.circle none ⟨0, 0, 0⟩ 1 ⟨1, 0, 0⟩)
      ⟨⟨0, 0, 0⟩, ⟨1, 0, 0⟩, 1, ⟨1, 0, 0⟩, 0, 1⟩ init_state rfl).1,
   C3_spatial_arc_sampling.2.1 2 test_frontend none ⟨0, 0, 0⟩ 1 ⟨1, 0, 0⟩
     init_state is_spatial_x_axis⟩

/-! ## C7: hatch boundary loops -/

/-- The number of discontinuities the hatch edge walk of
`draw_hatch_entity` encounters (one warning and one bridging vertex each),
starting from an optional previous endpoint. -/
def hatch_gap_count (f : Frontend) (ex : Vec3) (el : ℚ) :
    Option Vec3 → List LineEdge → ℕ
  | _, [] => 0
  | none, ed :: rest =>
      hatch_gap_count f ex el (some (hatch_end_vertex f ex el ed)) rest
  | some lv, ed :: rest =>
      (if lv.isclose (hatch_start_vertex f ex el ed) then 0 else 1) +
        hatch_gap_count f ex el (some (hatch_end_vertex f ex el ed)) rest

/-- The vertex list the hatch edge walk produces: each edge contributes its
start vertex, preceded by the previous endpoint as a bridging vertex exactly
when the loop is discontinuous there. -/
def hatch_vertex_list (f : Frontend) (ex : Vec3) (el : ℚ) :
    Option Vec3 → List LineEdge → List Vec3
  | _, [] => []
  | none, ed :: rest =>
      hatch_start_vertex f ex el ed ::
        hatch_vertex_list f ex el (some (hatch_end_vertex f ex el ed)) rest
  | some lv, ed :: rest =>
      (if lv.isclose (hatch_start_vertex f ex el ed)
        then [hatch_start_vertex f ex el ed]
        else [lv, hatch_start_vertex f ex el ed]) ++
        hatch_vertex_list f ex el (some (hatch_end_vertex f ex el ed)) rest

/-- The endpoint remembered after the hatch edge walk (the last edge's end
vertex, z zeroed). -/
def hatch_last_vertex (f : Frontend) (ex : Vec3) (el : ℚ) :
    Option Vec3 → List LineEdge → Option Vec3
  | lv, [] => lv
  | _, ed :: rest =>
      hatch_last_vertex f ex el (some (hatch_end_vertex f ex el ed)) rest

/-- The vertex list of the drawn hatch loop polygon: the walked vertices,
with the final endpoint appended when it is close to the first vertex. -/
def hatch_closed_vertices (f : Frontend) (ex : Vec3) (el : ℚ)
    (edges : List LineEdge) : List Vec3 :=
  match hatch_vertex_list f ex el none edges,
      hatch_last_vertex f ex el none edges with
  | [], _ => []
  | v0 :: rest, some lv =>
      if lv.isclose v0 then (v0 :: rest) ++ [lv] else v0 :: rest
  | v0 :: rest, none => v0 :: rest

/-- The warning prints produced by `n` hatch discontinuities. -/
def hatch_warnings (n : ℕ) : List BackendEvent :=
  List.replicate n (.log_message .hatch_not_contiguous)

/-- The hatch edge fold is exactly: emit one warning per discontinuity,
accumulate the walked vertex list, and remember the last endpoint. -/
theorem hatch_fold_spec (f : Frontend) (ex : Vec3) (el : ℚ)
    (edges : List LineEdge) (s : DrawState) (vs : List Vec3)
    (lv : Option Vec3) :
    edges.foldl (hatch_edge_step f ex el) (s, vs, lv) =
      ({ s with trace := s.trace ++ hatch_warnings (hatch_gap_count f ex el lv edges) },
       vs ++ hatch_vertex_list f ex el lv edges,
       hatch_last_vertex f ex el lv edges) := by
  induction edges generalizing s vs lv with
  | nil => simp [hatch_gap_count, hatch_vertex_list, hatch_last_vertex, hatch_warnings]
  | cons ed rest ih =>
    rw [List.foldl_cons]
    cases lv with
    | none =>
      rw [show hatch_edge_step f ex el (s, vs, none) ed =
        (s, vs ++ [hatch_start_vertex f ex el ed],
         some (hatch_end_vertex f ex el ed)) from rfl, ih]
      simp [hatch_gap_count, hatch_vertex_list, hatch_last_vertex, hatch_warnings]
    | some lvv =>
      by_cases hc : lvv.isclose (hatch_start_vertex f ex el ed) = true
      · rw [show hatch_edge_step f ex el (s, vs, some lvv) ed =
          (s, vs ++ [hatch_start_vertex f ex el ed],
           some (hatch_end_vertex f ex el ed)) from by
            simp [hatch_edge_step, hc], ih]
        simp [hatch_gap_count, hatch_vertex_list, hatch_last_vertex, hc, hatch_warnings]
      · rw [show hatch_edge_step f ex el (s, vs, some lvv) ed =
          (emit s (.log_message .hatch_not_contiguous),
           vs ++ [lvv, hatch_start_vertex f ex el ed],
           some (hatch_end_vertex f ex el ed)) from by
            simp [hatch_edge_step, hc], ih]
        simp [hatch_gap_count, hatch_vertex_list, hatch_last_vertex, hc, emit,
          hatch_warnings, Nat.one_add, List.replicate_succ]

/-- Starting from a remembered endpoint, the hatch walk always ends with a
remembered endpoint. -/
theorem hatch_last_vertex_isSome (f : Frontend) (ex : Vec3) (el : ℚ)
    (w : Vec3) (edges : List LineEdge) :
    ∃ u, hatch_last_vertex f ex el (some w) edges = some u := by
  induction edges generalizing w with
  | nil => exact ⟨w, rfl⟩
  | cons ed rest ih => exact ih (hatch_end_vertex f ex el ed)

/-- The full behaviour of one hatch boundary loop: the warnings for its
discontinuities followed by one filled polygon exactly when the loop is
non-empty. -/
theorem draw_hatch_path_spec (f : Frontend) (ex : Vec3) (el : ℚ)
    (props : Properties) (edges : List LineEdge) (s : DrawState) :
    (draw_hatch_path f ex el props edges s).trace =
      s.trace ++ hatch_warnings (hatch_gap_count f ex el none edges) ++
        (if edges.isEmpty then []
         else [.draw_filled_polygon (hatch_closed_vertices f ex el edges)
           props]) := by
  cases edges with
  | nil => simp [draw_hatch_path, hatch_gap_count, hatch_warnings]
  | cons ed rest =>
    obtain ⟨u, hu⟩ := hatch_last_vertex_isSome f ex el
      (hatch_end_vertex f ex el ed) rest
    unfold draw_hatch_path hatch_closed_vertices
    rw [hatch_fold_spec]
    simp only [List.nil_append, hatch_vertex_list, hatch_last_vertex, hu,
      emit, List.isEmpty_cons]
    by_cases hcl : u.isclose (hatch_start_vertex f ex el ed) = true <;>
      simp [hcl, List.append_assoc]

/-- Helper: `count_events` distributes over trace concatenation. -/
theorem count_events_append (p : BackendEvent → Bool)
    (t u : List BackendEvent) :
    count_events p (t ++ u) = count_events p t + count_events p u := by
  simp [count_events, List.countP_append]

/-- Counting over a replicated event. -/
theorem count_events_replicate (p : BackendEvent → Bool) (n : ℕ)
    (ev : BackendEvent) :
    count_events p (List.replicate n ev) = if p ev then n else 0 := by
  induction n with
  | zero => simp [count_events]
  | succ n ih =>
    rw [List.replicate_succ]
    by_cases h : p ev = true <;>
      simp only [count_events, List.countP_cons, h] at ih ⊢ <;>
      simp [count_events, h, ih]

/-- C7 (amended): for every hatch boundary loop — (i) the loop produces
exactly one discontinuity warning per non-contiguous adjacent edge pair
(none when all edges are contiguous) followed by exactly one filled-polygon
draw call when the loop is non-empty and none when it is empty; (ii) at a
discontinuity, exactly one bridging vertex is inserted, namely the previous
edge's endpoint (z zeroed), before the current edge's start vertex; (iii)
when the loop's final endpoint (z zeroed) is close to its first vertex, that
final endpoint — not the first vertex — is appended to close the loop. -/
theorem C7_hatch_loop (f : Frontend) (ex : Vec3) (el : ℚ)
    (props : Properties) (edges : List LineEdge) (s : DrawState) :
    ((draw_hatch_path f ex el props edges s).trace =
      s.trace ++ hatch_warnings (hatch_gap_count f ex el none edges) ++
        (if edges.isEmpty then []
         else [.draw_filled_polygon (hatch_closed_vertices f ex el edges)
           props])) ∧
    (count_events is_hatch_warning
        (draw_hatch_path f ex el props edges s).trace =
      count_events is_hatch_warning s.trace +
        hatch_gap_count f ex el none edges) ∧
    (count_events is_filled_polygon
        (draw_hatch_path f ex el props edges s).trace =
      count_events is_filled_polygon s.trace +
        (if edges.isEmpty then 0 else 1)) ∧
    (∀ (lv : Vec3) (ed : LineEdge) (rest : List LineEdge),
      lv.isclose (hatch_start_vertex f ex el ed) = false →
      hatch_vertex_list f ex el (some lv) (ed :: rest) =
        lv :: hatch_start_vertex f ex el ed ::
          hatch_vertex_list f ex el (some (hatch_end_vertex f ex el ed))
            rest ∧
      hatch_gap_count f ex el (some lv) (ed :: rest) =
        1 + hatch_gap_count f ex el (some (hatch_end_vertex f ex el ed))
          rest) ∧
    (∀ (v0 : Vec3) (vrest : List Vec3) (lv : Vec3),
      hatch_vertex_list f ex el none edges = v0 :: vrest →
      hatch_last_vertex f ex el none edges = some lv →
      lv.isclose v0 = true →
      hatch_closed_vertices f ex el edges = (v0 :: vrest) ++ [lv]) := by
  refine ⟨draw_hatch_path_spec f ex el props edges s, ?_, ?_,
    fun lv ed rest h => ⟨by simp [hatch_vertex_list, h],
      by simp [hatch_gap_count, h]⟩,
    fun v0 vrest lv h1 h2 h3 => ?_⟩
  · rw [draw_hatch_path_spec, count_events_append, count_events_append,
      hatch_warnings, count_events_replicate]
    cases edges <;> simp [count_events, is_hatch_warning]
  · rw [draw_hatch_path_spec, count_events_append, count_events_append,
      hatch_warnings, count_events_replicate]
    cases edges <;> simp [count_events, is_hatch_warning, is_filled_polygon]
  · unfold hatch_closed_vertices
    rw [h1, h2]
    simp [h3]

/-- The closing-gap offset 1e-13: smaller than the closeness tolerance but
non-zero. -/
def tiny_q : ℚ := 1 / 10000000000000

/-- The single hatch boundary edge from (0, 0) to (1e-13, 0): shorter than
the closeness tolerance, so its endpoint is close to — but different from —
its start. -/
def tiny_edge : LineEdge := ⟨0, 0, tiny_q, 0⟩

/-- The walked start vertex of `tiny_edge` at elevation 0 with the default
+Z extrusion. -/
theorem tiny_edge_start :
    hatch_start_vertex test_frontend Z_AXIS 0 tiny_edge = ⟨0, 0, 0⟩ := by
  simp [hatch_start_vertex, hatch_to_wcs, tiny_edge]

/-- The walked end vertex of `tiny_edge`. -/
theorem tiny_edge_end :
    hatch_end_vertex test_frontend Z_AXIS 0 tiny_edge = ⟨tiny_q, 0, 0⟩ := by
  simp [hatch_end_vertex, hatch_to_wcs, Vec3.withZ, tiny_edge]

/-- The loop's final endpoint is close to its first vertex. -/
theorem tiny_edge_isclose :
    Vec3.isclose ⟨tiny_q, 0, 0⟩ ⟨0, 0, 0⟩ = true := by
  simp only [Vec3.isclose, vec_tol, tiny_q, Bool.and_eq_true,
    decide_eq_true_eq]
  norm_num [abs_of_nonneg]

/-- C7 counterexample: the claim states that when a hatch loop's last vertex
nearly coincides with its first, *the first vertex* is appended to force
closure.  The code appends `last_vertex` instead (frontend.py lines
260-261): for the loop consisting of `tiny_edge` the drawn polygon is
`[(0,0,0), (1e-13,0,0)]` — its appended closing vertex differs from the
first vertex, which the claim's wording forbids. -/
theorem C7_closure_appends_final_endpoint :
    (draw_hatch_path test_frontend Z_AXIS 0 ⟨7, 0, true⟩ [tiny_edge]
      init_state).trace =
      [.draw_filled_polygon [⟨0, 0, 0⟩, ⟨tiny_q, 0, 0⟩] ⟨7, 0, true⟩] ∧
    (⟨tiny_q, 0, 0⟩ : Vec3) ≠ ⟨0, 0, 0⟩ := by
  constructor
  · rw [draw_hatch_path_spec]
    have h1 : hatch_vertex_list test_frontend Z_AXIS 0 none [tiny_edge] =
        [⟨0, 0, 0⟩] := by
      simp [hatch_vertex_list, tiny_edge_start]
    have h2 : hatch_last_vertex test_frontend Z_AXIS 0 none [tiny_edge] =
        some ⟨tiny_q, 0, 0⟩ := by
      simp [hatch_last_vertex, tiny_edge_end]
    have h3 : hatch_closed_vertices test_frontend Z_AXIS 0 [tiny_edge] =
        [⟨0, 0, 0⟩, ⟨tiny_q, 0, 0⟩] := by
      unfold hatch_closed_vertices
      rw [h1, h2]
      simp [tiny_edge_isclose]
    have h4 : hatch_gap_count test_frontend Z_AXIS 0 none [tiny_edge] = 0 :=
      rfl
    rw [h3, h4]
    simp [init_state, hatch_warnings]
  · intro h
    have hx := congrArg Vec3.x h
    norm_num [tiny_q] at hx

/-- C7 witness: the amended hatch-loop theorem applied to the concrete
single-edge loop `tiny_edge` (for the bridging conjunct: a previous endpoint
(5, 0, 0) that is not close to the edge's start). -/
theorem C7_hatch_loop_witness :
    (hatch_vertex_list test_frontend Z_AXIS 0 (some ⟨5, 0, 0⟩) [tiny_edge] =
      ⟨5, 0, 0⟩ :: hatch_start_vertex test_frontend Z_AXIS 0 tiny_edge ::
        hatch_vertex_list test_frontend Z_AXIS 0
          (some (hatch_end_vertex test_frontend Z_AXIS 0 tiny_edge)) [] ∧
     hatch_gap_count test_frontend Z_AXIS 0 (some ⟨5, 0, 0⟩) [tiny_edge] =
       1 + hatch_gap_count test_frontend Z_AXIS 0
         (some (hatch_end_vertex test_frontend Z_AXIS 0 tiny_edge)) []) ∧
    hatch_closed_vertices test_frontend Z_AXIS 0 [tiny_edge] =
      [⟨0, 0, 0⟩] ++ [⟨tiny_q, 0, 0⟩] ∧
    count_events is_hatch_warning
      (draw_hatch_path test_frontend Z_AXIS 0 ⟨7, 0, true⟩ [tiny_edge]
        init_state).trace =
      count_events is_hatch_warning init_state.trace +
        hatch_gap_count test_frontend Z_AXIS 0 none [tiny_edge] ∧
    count_events is_filled_polygon
      (draw_hatch_path test_frontend Z_AXIS 0 ⟨7, 0, true⟩ [tiny_edge]
        init_state).trace =
      count_events is_filled_polygon init_state.trace +
        (if ([tiny_edge] : List LineEdge).isEmpty then 0 else 1) := by
  have h5 : Vec3.isclose ⟨5, 0, 0⟩
      (hatch_start_vertex test_frontend Z_AXIS 0 tiny_edge) = false := by
    rw [tiny_edge_start]
    simp only [Vec3.isclose, vec_tol, Bool.and_eq_true, decide_eq_true_eq]
    simp only [Bool.and_eq_false_iff, decide_eq_false_iff_not]
    left
    norm_num [abs_of_nonneg]
  have h1 : hatch_vertex_list test_frontend Z_AXIS 0 none [tiny_edge] =
      ⟨0, 0, 0⟩ :: [] := by
    simp [hatch_vertex_list, tiny_edge_start]
  have h2 : hatch_last_vertex test_frontend Z_AXIS 0 none [tiny_edge] =
      some ⟨tiny_q, 0, 0⟩ := by
    simp [hatch_last_vertex, tiny_edge_end]
  exact ⟨(C7_hatch_loop test_frontend Z_AXIS 0 ⟨7, 0, true⟩ [tiny_edge]
      init_state).2.2.2.1 ⟨5, 0, 0⟩ tiny_edge [] h5,
    (C7_hatch_loop test_frontend Z_AXIS 0 ⟨7, 0, true⟩ [tiny_edge]
      init_state).2.2.2.2 ⟨0, 0, 0⟩ [] ⟨tiny_q, 0, 0⟩ h1 h2 tiny_edge_isclose,
    (C7_hatch_loop test_frontend Z_AXIS 0 ⟨7, 0, true⟩ [tiny_edge]
      init_state).2.1,
    (C7_hatch_loop test_frontend Z_AXIS 0 ⟨7, 0, true⟩ [tiny_edge]
      init_state).2.2.1⟩
